import Mathlib

/-!
Shallow embedding of the user-service core of the backend-crash-game
repository (src/services/user-service.js and the Redis message handler in
src/index.js), with theorems settling the specification claims about it.

Machine integers of the source are modelled as `Int` (JS numbers used as
integers, and BigInt on the `getTotalWin` path); fallible operations return
`Except`; the document store is passed explicitly as values.
-/

namespace CrashGame

/-! ## Ranking engine (`getRankByUserId`, user-service.js lines 71-100) -/

/-- One row of the projection `{ _id: 1, amountWon: 1 }` together with the
registration `date` the query sorts on. -/
structure RankUser where
  uid : Nat
  amountWon : Int
  date : Nat
deriving DecidableEq, Repr

/-- The result record `{ rank, toNextRank }` of `getRankByUserId`. -/
structure Ranking where
  rank : Nat
  toNextRank : Int
deriving DecidableEq, Repr

/-- The order of `.sort({ amountWon: -1, date: -1 })`: larger `amountWon`
first, ties broken by larger (more recent) `date` first. -/
def rankLE (u v : RankUser) : Bool :=
  (v.amountWon < u.amountWon) || (u.amountWon = v.amountWon && v.date ≤ u.date)

/-- Insertion into a list sorted by `rankLE`. -/
def insertRanked (u : RankUser) : List RankUser → List RankUser
  | [] => [u]
  | v :: rest => if rankLE u v then u :: v :: rest else v :: insertRanked u rest

/-- The sorted user list returned by the `User.find(...).sort(...)` query. -/
def sortUsers (l : List RankUser) : List RankUser :=
  l.foldr insertRanked []

/-- The scan loop of `getRankByUserId`: index `i`, the running
`lastDiffAmount`, and the `ranking` accumulator, updated exactly as in the
source (the `ranking` update reads the old `lastDiffAmount`; afterwards
`lastDiffAmount` is overwritten when it is `0` or differs from the current
user's `amountWon`). -/
def rankScan (userId : Nat) : List RankUser → Nat → Int → Ranking → Ranking
  | [], _, _, ranking => ranking
  | u :: rest, i, lastDiffAmount, ranking =>
    let ranking' :=
      if u.uid = userId then
        { rank := i + 1
          toNextRank := if i = 0 then 0 else lastDiffAmount - u.amountWon }
      else ranking
    let lastDiffAmount' :=
      if lastDiffAmount = 0 ∨ lastDiffAmount ≠ u.amountWon then u.amountWon
      else lastDiffAmount
    rankScan userId rest (i + 1) lastDiffAmount' ranking'

/-- `getRankByUserId(userId)` over the population `users`: sort by
`amountWon` descending then `date` descending, scan assigning
`rank = i + 1` and `toNextRank = (i == 0) ? 0 : lastDiffAmount - amountWon`. -/
def getRankByUserId (users : List RankUser) (userId : Nat) : Ranking :=
  rankScan userId (sortUsers users) 0 0 { rank := 0, toNextRank := 0 }

/-- The population of the spec's ranking example: scores `[100, 100, 50, 10]`
for users A, B, C, D, where A registered before B (earlier `date`). -/
def exampleUserA : RankUser := { uid := 1, amountWon := 100, date := 10 }

def exampleUserB : RankUser := { uid := 2, amountWon := 100, date := 20 }

def exampleUserC : RankUser := { uid := 3, amountWon := 50, date := 15 }

def exampleUserD : RankUser := { uid := 4, amountWon := 10, date := 5 }

def examplePopulation : List RankUser :=
  [exampleUserA, exampleUserB, exampleUserC, exampleUserD]

/-! ## `getTotalWin` (user-service.js lines 131, 137-140) -/

/-- `const INITIAL_LIQUIDITY = 5000n`. -/
def INITIAL_LIQUIDITY : Int := 5000

/-- `getTotalWin(balance)`: subtract the initial liquidity in BigInt
arithmetic and clamp negative results to `0n`. -/
def getTotalWin (balance : Int) : Int :=
  let value := balance - INITIAL_LIQUIDITY
  if value < 0 then 0 else value

/-! ## Bonus allocator (`checkUserRegistrationBonus`, user-service.js
lines 477-500)

The state is the number of users whose `bonus.name` equals
`BONUS_TYPES.LAUNCH_1k_500.type`, i.e. the count returned by the
`User.find({'bonus.name': ...})` query.  `endDate` and the per-user bonus
`amount` come from `BONUS_TYPES.LAUNCH_1k_500` in `util/constants` (outside
the given sources) and are abstract parameters here.  Granting is the call
`walletUtil.transferBonus(amount, userId)`; `util/wallet` is outside the
given sources, so per the spec's data model (the user's `bonus` marker
records the granted promotional bonus) a grant adds one allocation to the
count. -/

/-- `checkUserRegistrationBonus(userId)`: skip (no-op) when the bonus period
is over (`validUntil < now`); otherwise grant the fixed `amount` iff the
count of existing allocations is `<= 1000` (`totalUsers`).  Returns the new
allocation count and `some amount` when the bonus was transferred. -/
def checkUserRegistrationBonus (endDate now : Nat) (amount : Int) (count : Nat) :
    Nat × Option Int :=
  if endDate < now then (count, none)
  else if count ≤ 1000 then (count + 1, some amount)
  else (count, none)

/-- Runs `checkUserRegistrationBonus` `k` times sequentially starting from an
empty allocation table, returning the final allocation count and the total
number of grants made. -/
def grantsAfter (endDate now : Nat) (amount : Int) : Nat → Nat × Nat
  | 0 => (0, 0)
  | k + 1 =>
    let prev := grantsAfter endDate now amount k
    let step := checkUserRegistrationBonus endDate now amount prev.1
    (step.1, if step.2.isSome then prev.2 + 1 else prev.2)

/-! ## Pub/Sub router message handler (index.js lines 101-116) -/

/-- The fields of a decoded Redis message the handler reads: `event`, `to`,
and `data.reward` (`none` models a payload whose `data` field is absent, so
that `messageObj.data.reward` would throw a TypeError). -/
structure MessageObj where
  event : String
  toId : String
  data : Option Int
deriving DecidableEq, Repr

/-- The errors that can escape the handler: `JSON.parse` throwing on
malformed input, or a property access on `undefined`. -/
inductive RouterError
  | parseError
  | typeError
deriving DecidableEq, Repr

/-- The observable effect of one handler run: the
`increaseAmountWon(to, reward)` call made on the `CASINO_REWARD` path, and
the `io.of('/').to(to).emit(event, data)` fan-out. -/
structure RouterEffect where
  increasedWon : Option (String × Int)
  emitted : Option (String × String)
deriving DecidableEq, Repr

/-- The `subClient.on('message', ...)` handler.  Its one decoding step is
`const messageObj = JSON.parse(message)` with no surrounding try/catch, so a
parse failure (input `none`) propagates as an uncaught exception; on a
`CASINO_REWARD` message without a `data` object, `messageObj.data.reward`
likewise throws.  Otherwise the handler updates `amountWon` on the
`CASINO_REWARD` path and emits to the room `messageObj.to`. -/
def onMessage (parsed : Option MessageObj) : Except RouterError RouterEffect :=
  match parsed with
  | none => Except.error RouterError.parseError
  | some m =>
    if m.event = "CASINO_REWARD" then
      match m.data with
      | none => Except.error RouterError.typeError
      | some reward =>
        Except.ok { increasedWon := some (m.toId, reward), emitted := some (m.toId, m.event) }
    else
      Except.ok { increasedWon := none, emitted := some (m.toId, m.event) }

/-- `true` when the handler run ended in an uncaught exception. -/
def routerRunFails (parsed : Option MessageObj) : Bool :=
  match onMessage parsed with
  | Except.error _ => true
  | Except.ok _ => false

/-! ## Threshold award evaluator (`checkTotalBetsAward`, user-service.js
lines 415-437) -/

/-- The milestone list `[5, 20, 50, 100, 150]` of `checkTotalBetsAward`. -/
def milestones : List Nat := [5, 20, 50, 100, 150]

/-- `checkTotalBetsAward(userId)`.  `rewardTable` models the fixed table
`WFAIR_REWARDS.totalBets` from `util/constants` (outside the given sources).
`totalBets` is the `getUserBetsAmount` result; `none` models a failed or
empty lookup, mapped to `0` by `totalUserBets?.totalBets || 0`.  Returns
`some (total, award)` when an award fires (the `createUserAwardEvent` call
with `awardData.total = total` and `awardData.award` from the table), and
`none` otherwise. -/
def checkTotalBetsAward (rewardTable : Nat → Int) (totalBets : Option Nat) :
    Option (Nat × Int) :=
  let total := totalBets.getD 0
  if milestones.contains total then some (total, rewardTable total)
  else none

/-! ## `increaseAmountWon` (user-service.js lines 351-368)

The relevant user state is the `amountWon` field; `none` models a `userId`
that matches no user document.  One call runs
`User.findById(...)` then, only `if (user)`, `user.amountWon += +amount` and
`user.save()`; the surrounding try/catch logs and rethrows, so a failing
database operation surfaces the same error to the caller and is not
retried. -/

/-- One `increaseAmountWon(userId, amount)` call in which the database
operations succeed: an existing user's `amountWon` grows by `amount`; when no
user matches, the `if (user)` guard skips the update and the call still
resolves without error. -/
def increaseAmountWon (user : Option Int) (amount : Int) : Except String (Option Int) :=
  Except.ok
    (match user with
     | some amountWon => some (amountWon + amount)
     | none => none)

/-- One `increaseAmountWon` call whose database operation fails with error
`e`: the catch block logs and rethrows the same error (`throw err`), with no
internal retry. -/
def increaseAmountWonFailing (e : String) (_user : Option Int) (_amount : Int) :
    Except String (Option Int) :=
  Except.error e

/-! Concurrency model of `increaseAmountWon`.  The `findById` query and
`user.save()` inside the `withTransaction` callback never pass the
`userSession` (unlike the `.session(session)` queries elsewhere in the
file), so they run outside the started transaction: a call is a plain
read of `amountWon` followed by a write of `read value + amount`, and two
overlapping calls may interleave. -/

/-- An atomic step of one in-flight `increaseAmountWon` call: the `findById`
read or the `save` write, tagged with which of the two calls performs it. -/
inductive IncAction
  | read (i : Fin 2)
  | write (i : Fin 2)

/-- State of two in-flight `increaseAmountWon` calls on one user: the stored
`amountWon` and the value each call has read so far. -/
structure IncState where
  stored : Int
  regs : Fin 2 → Option Int

/-- One step: a read loads the stored `amountWon` into the call's local
`user` document; a write stores `read value + delta` back (`save` persists
the whole in-memory document). -/
def incStep (deltas : Fin 2 → Int) (st : IncState) : IncAction → IncState
  | IncAction.read i => { st with regs := fun j => if j = i then some st.stored else st.regs j }
  | IncAction.write i =>
    match st.regs i with
    | some r => { st with stored := r + deltas i }
    | none => st

/-- Runs a schedule of interleaved read/write steps of the two calls. -/
def runIncSchedule (deltas : Fin 2 → Int) (schedule : List IncAction) (initial : Int) : Int :=
  (schedule.foldl (incStep deltas) { stored := initial, regs := fun _ => none }).stored

/-! ## `updateStatus` and `updateUserConsent` (user-service.js lines 370-379
and 314-324) -/

/-- The user fields touched by the two mutations below. -/
structure UserDoc where
  status : String
  tosConsentedAt : Option String
deriving DecidableEq, Repr

/-- `updateStatus(userId, status)`: sets the status of an existing user,
throws `'User does not exist'` when `findById` matches nothing. -/
def updateStatus (user : Option UserDoc) (status : String) : Except String UserDoc :=
  match user with
  | some u => Except.ok { u with status := status }
  | none => Except.error "User does not exist"

/-- `updateUserConsent(userId)`: throws `'NOT_FOUND'` when `findById`
matches nothing, otherwise stamps `tosConsentedAt` with the current time. -/
def updateUserConsent (user : Option UserDoc) (now : String) : Except String UserDoc :=
  match user with
  | none => Except.error "NOT_FOUND"
  | some u => Except.ok { u with tosConsentedAt := some now }

/-! ## `mintUser` and `createUserAwardEvent` (user-service.js lines 133-135
and 386-408) -/

/-- `mintUser(userId, amount)`: unconditionally `throw Error('Not supported')`. -/
def mintUser : Except String Unit :=
  Except.error "Not supported"

/-- The observable outcome of `createUserAwardEvent`: the mint error passed
to `console.error` by the `.catch` handler (if any), and whether the
`user_award` message was published on the `universal_events` exchange. -/
structure AwardOutcome where
  mintErrorLogged : Option String
  published : Bool
deriving DecidableEq, Repr

/-- `createUserAwardEvent({userId, awardData})`: when `awardData.award` is
truthy (a nonzero amount), calls `mintUser` with a `.catch` that logs the
error; in every case it then publishes the `event.user_award` message.  The
whole call resolves without error. -/
def createUserAwardEvent (award : Int) : Except String AwardOutcome :=
  if award ≠ 0 then
    match mintUser with
    | Except.error e => Except.ok { mintErrorLogged := some e, published := true }
    | Except.ok _ => Except.ok { mintErrorLogged := none, published := true }
  else
    Except.ok { mintErrorLogged := none, published := true }

/-! ## `updateUserPreferences` (user-service.js lines 20, 326-349) -/

/-- `const CURRENCIES = ['WFAIR', 'EUR', 'USD']`. -/
def CURRENCIES : List String := ["WFAIR", "EUR", "USD"]

/-- `updateUserPreferences(userId, preferences)` restricted to the currency
field it validates and persists.  `storedCurrency` is the user's persisted
`preferences.currency`; the result is the persisted currency after
`user.save()`.  When `preferences` is present and its currency is not in
`CURRENCIES`, the function throws before mutating or saving the user, so an
error leaves the stored value untouched. -/
def updateUserPreferences (storedCurrency : String) (preferences : Option String) :
    Except String String :=
  match preferences with
  | some currency =>
    if CURRENCIES.contains currency then Except.ok currency
    else Except.error ("User validation failed. Invalid currency " ++ currency)
  | none => Except.ok storedCurrency

/-! ## Theorems settling the claims -/

/-- Claim C1, counterexample.  On the spec's own example population
(scores `[100, 100, 50, 10]` for A, B, C, D with A registered before B),
`getRankByUserId` does not give A rank 1 and B rank 2: the query sorts ties
by `date: -1` (registration date descending), so the later registrant B
precedes A. -/
theorem c1_ranking_tiebreak_counterexample :
    (getRankByUserId examplePopulation 1).rank ≠ 1 ∧
    (getRankByUserId examplePopulation 2).rank ≠ 2 := by
  decide

/-- Claim C1, amended.  With the tie broken by registration date descending
(the later registrant first), the ranking operation on the example
population returns `getRank(B) = 1`, `getRank(A) = 2` (both with
`toNextRank = 0`), `getRank(C) = 3` with `toNextRank = 100 - 50 = 50`, and
`getRank(D) = 4` with `toNextRank = 50 - 10 = 40`; rank is position + 1 and
`toNextRank` is 0 at the first position and otherwise the gap between the
running previous-distinct score and the user's own score. -/
theorem c1_ranking_tiebreak_amended :
    getRankByUserId examplePopulation 2 = { rank := 1, toNextRank := 0 } ∧
    getRankByUserId examplePopulation 1 = { rank := 2, toNextRank := 0 } ∧
    getRankByUserId examplePopulation 3 = { rank := 3, toNextRank := 50 } ∧
    getRankByUserId examplePopulation 4 = { rank := 4, toNextRank := 40 } := by
  decide

/-- Before the deadline, every sequential run of at most 1001 calls from an
empty allocation table grants on every call: after `k` calls there are `k`
allocations and `k` grants, because the gate `count <= 1000` stays true up
to and including `count = 1000`. -/
theorem grantsAfter_le_capacity (endDate now : Nat) (amount : Int) (h : ¬ endDate < now) :
    (k : Nat) → k ≤ 1001 → grantsAfter endDate now amount k = (k, k)
  | 0, _ => rfl
  | n + 1, hk => by
    have hn : n ≤ 1001 := by omega
    have hn' : n ≤ 1000 := by omega
    simp [grantsAfter, grantsAfter_le_capacity endDate now amount h n hn,
      checkUserRegistrationBonus, h, hn']

/-- Claim C2, evaluation at the failing input.  With 1000 registration-bonus
allocations already existing and the deadline not yet passed,
`checkUserRegistrationBonus` still grants (the gate is `count <= 1000`, not
`count < 1000`), producing a 1001st allocation; starting from an empty
table, 1001 sequential calls yield 1001 grants, exceeding the capacity of
1000 that the claim (and the function's own doc comment, "first 1000
users") requires. -/
theorem c2_bonus_capacity_overrun :
    checkUserRegistrationBonus 10 10 500 1000 = (1001, some 500) ∧
    (grantsAfter 10 10 500 1001).2 = 1001 := by
  constructor
  · decide
  · rw [grantsAfter_le_capacity 10 10 500 (by decide) 1001 (by decide)]

/-- Claim C3, counterexample.  A malformed (non-JSON) payload does not get
dropped and logged: `JSON.parse` has no surrounding try/catch, so the
message handler ends in an uncaught exception. -/
theorem c3_malformed_message_counterexample :
    onMessage none = Except.error RouterError.parseError := rfl

/-- Claim C3, amended.  The message handler raises (rather than dropping and
logging) exactly on the malformed payloads: a non-JSON message (parse
failure), or a `CASINO_REWARD` message whose payload lacks a `data` object
(`messageObj.data.reward` on `undefined`); every other message is handled
without error. -/
theorem c3_malformed_message_amended (parsed : Option MessageObj) :
    routerRunFails parsed = true ↔
      parsed = none ∨ ∃ m, parsed = some m ∧ m.event = "CASINO_REWARD" ∧ m.data = none := by
  cases parsed with
  | none => simp [routerRunFails, onMessage]
  | some m =>
    cases h : m.data <;> by_cases he : m.event = "CASINO_REWARD" <;>
      simp [routerRunFails, onMessage, he, h]

/-- Claim C4.  `checkTotalBetsAward` fires an award iff the lifetime bets
total is exactly a member of `[5, 20, 50, 100, 150]` (membership, not `>=`);
when it fires, the award amount is the reward table's entry for that
milestone; and over the totals sequence `4, 5, 6, ..., 20` exactly two
awards fire, at totals 5 and 20. -/
theorem c4_milestone_membership (rewardTable : Nat → Int) (total : Nat) :
    ((checkTotalBetsAward rewardTable (some total)).isSome ↔ total ∈ milestones) ∧
    (total ∈ milestones →
      checkTotalBetsAward rewardTable (some total) = some (total, rewardTable total)) ∧
    (List.range' 4 17).filter (fun t => (checkTotalBetsAward rewardTable (some t)).isSome) =
      [5, 20] := by
  refine ⟨?_, ?_, rfl⟩
  · cases h : milestones.contains total <;>
      simp_all [checkTotalBetsAward, List.contains, List.elem_iff]
  · intro h
    simp [checkTotalBetsAward, List.contains, List.elem_iff, h]

/-- Witness for C4: at the milestone total 5 the award fires with the
table's amount. -/
theorem c4_milestone_membership_witness :
    checkTotalBetsAward (fun _ => 7) (some 5) = some (5, 7) :=
  (c4_milestone_membership (fun _ => 7) 5).2.1 (by decide)

/-- Claim C5, evaluation at the failing input.  Two overlapping
`increaseAmountWon` calls with deltas 1 and 1 on a user whose `amountWon`
starts at 0, scheduled read-read-write-write, leave `amountWon` at 1 rather
than the claimed `initial + d1 + d2 = 2`: the `findById` read and the
`save` write never join the session opened by `withTransaction`, so the
read-modify-write is not atomic and one update is lost. -/
theorem c5_lost_update_at_failing_input :
    runIncSchedule (fun _ => 1)
      [IncAction.read 0, IncAction.read 1, IncAction.write 0, IncAction.write 1] 0 = 1 ∧
    (1 : Int) ≠ 0 + (1 + 1) := by
  decide

/-- Claim C6, counterexample.  `increaseAmountWon` called with a `userId`
matching no user completes without any error (the `if (user)` guard simply
skips the update), so not every per-user mutation surfaces a user-not-found
error. -/
theorem c6_missing_user_counterexample :
    increaseAmountWon none 5 = Except.ok none := rfl

/-- Claim C6, amended.  `updateStatus` and `updateUserConsent` do surface a
not-found error on a missing user (`'User does not exist'` and
`'NOT_FOUND'`), and a failing database operation in `increaseAmountWon` is
rethrown to the caller; but `increaseAmountWon` on a missing user completes
silently without error. -/
theorem c6_missing_user_amended (status now : String) (amount : Int) (e : String)
    (user : Option Int) :
    updateStatus none status = Except.error "User does not exist" ∧
    updateUserConsent none now = Except.error "NOT_FOUND" ∧
    increaseAmountWon none amount = Except.ok none ∧
    increaseAmountWonFailing e user amount = Except.error e :=
  ⟨rfl, rfl, rfl, rfl⟩

/-- Claim C7.  For every nonzero award amount, `createUserAwardEvent` calls
`mintUser`, whose unconditional `'Not supported'` failure is caught and
logged, and the `user_award` notification is still published: the whole call
resolves without error, so a mint failure never prevents or rolls back the
award notification. -/
theorem c7_mint_failure_nonfatal (award : Int) (h : award ≠ 0) :
    createUserAwardEvent award =
      Except.ok { mintErrorLogged := some "Not supported", published := true } := by
  simp [createUserAwardEvent, mintUser, h]

/-- Witness for C7 at the concrete award amount 500. -/
theorem c7_mint_failure_nonfatal_witness :
    createUserAwardEvent 500 =
      Except.ok { mintErrorLogged := some "Not supported", published := true } :=
  c7_mint_failure_nonfatal 500 (by decide)

/-- Claim C8.  `checkUserRegistrationBonus` is a no-op whenever the current
time is past the bonus deadline; otherwise it grants the fixed per-user
amount iff the count of existing registration-bonus allocations is less
than or equal to the capacity of 1000. -/
theorem c8_registration_bonus_gate (endDate now : Nat) (amount : Int) (count : Nat) :
    (endDate < now → checkUserRegistrationBonus endDate now amount count = (count, none)) ∧
    (¬ endDate < now →
      ((checkUserRegistrationBonus endDate now amount count).2 = some amount ↔
        count ≤ 1000)) := by
  constructor
  · intro h
    simp [checkUserRegistrationBonus, h]
  · intro h
    by_cases hc : count ≤ 1000 <;> simp [checkUserRegistrationBonus, h, hc]

/-- Witness for C8: past the deadline the call is a no-op, and at the
deadline with exactly 1000 allocations the `<=` gate still grants. -/
theorem c8_registration_bonus_gate_witness :
    checkUserRegistrationBonus 1 2 500 0 = (0, none) ∧
    ((checkUserRegistrationBonus 5 5 500 1000).2 = some 500 ↔ 1000 ≤ 1000) :=
  ⟨(c8_registration_bonus_gate 1 2 500 0).1 (by decide),
    (c8_registration_bonus_gate 5 5 500 1000).2 (by decide)⟩

/-- Claim C9.  With `preferences` present, `updateUserPreferences` throws
the invalid-currency validation error exactly when the requested currency is
outside `['WFAIR', 'EUR', 'USD']` — and it throws before mutating or saving,
so the stored preference is unchanged — while a valid currency is persisted
on the user. -/
theorem c9_currency_validation (storedCurrency currency : String) :
    (CURRENCIES.contains currency = false →
      updateUserPreferences storedCurrency (some currency) =
        Except.error ("User validation failed. Invalid currency " ++ currency)) ∧
    (CURRENCIES.contains currency = true →
      updateUserPreferences storedCurrency (some currency) = Except.ok currency) := by
  constructor <;> intro h <;> simp at h <;> simp [updateUserPreferences, h]

/-- Witness for C9: the unknown currency GBP is rejected and the valid
currency EUR is persisted. -/
theorem c9_currency_validation_witness :
    updateUserPreferences "WFAIR" (some "GBP") =
      Except.error ("User validation failed. Invalid currency " ++ "GBP") ∧
    updateUserPreferences "WFAIR" (some "EUR") = Except.ok "EUR" :=
  ⟨(c9_currency_validation "WFAIR" "GBP").1 (by decide),
    (c9_currency_validation "WFAIR" "EUR").2 (by decide)⟩

/-- Claim C10.  For every integer balance, `getTotalWin` equals
`max (balance - 5000) 0` in exact integer arithmetic, and in particular is
never negative. -/
theorem c10_total_win_clamped (balance : Int) :
    getTotalWin balance = max (balance - 5000) 0 ∧ 0 ≤ getTotalWin balance := by
  have h : getTotalWin balance = if balance - 5000 < 0 then 0 else balance - 5000 := rfl
  constructor <;> rw [h]
  · split <;> omega
  · split <;> omega

end CrashGame
